import Mathlib

/-!
# arrow-zig: the C helpers `test_helper_roundtrip_array` and `LLVMFuzzerTestOneInput`

A shallow embedding of `src/nanoarrow_test_helper/root.c` and `src/fuzz.c`.

* The four objects behind the pointer arguments of `test_helper_roundtrip_array`
  are four distinct objects (`ArrowArrayMove` copies with `memcpy`, which
  requires it); they are passed and returned as the record `Slots`.
* The nanoarrow validation engine is not part of the sources. Its five entry
  points used by the helper are a parameter, the record `Engine`. The entry
  points take the schema and the array through `const` pointers, so the model
  gives them the value and gets no new value back.
* Every call the helper makes to the outside (engine, `fprintf`, the two
  moves) is recorded, in program order, in a trace.
-/

namespace ArrowZig

/-! ## Data model -/

/-- Modelled from the spec: `struct ArrowArray` is declared in nanoarrow.h, which
is not among the sources. An array node has a logical length, a null count,
an ordered sequence of raw data buffers and an ordered sequence of child
arrays; `release` is the release callback (`none` is the C `NULL`, the
released state). -/
inductive ArrowArray where
  | mk (length : Int) (null_count : Int) (buffers : List (List Nat))
      (children : List ArrowArray) (release : Option Nat)

namespace ArrowArray

def length : ArrowArray → Int
  | mk l _ _ _ _ => l

def null_count : ArrowArray → Int
  | mk _ n _ _ _ => n

def buffers : ArrowArray → List (List Nat)
  | mk _ _ b _ _ => b

def children : ArrowArray → List ArrowArray
  | mk _ _ _ c _ => c

def release : ArrowArray → Option Nat
  | mk _ _ _ _ r => r

/-- The same node with its release callback set to `NULL`. -/
def released : ArrowArray → ArrowArray
  | mk l n b c _ => mk l n b c none

end ArrowArray

/-- Modelled from the spec: `struct ArrowSchema` is declared in nanoarrow.h, which
is not among the sources. A schema node has a logical data type (the format
string), an optional name, and an ordered sequence of child schemas;
`release` is the release callback (`none` is the C `NULL`). -/
inductive ArrowSchema where
  | mk (format : String) (name : Option String) (children : List ArrowSchema)
      (release : Option Nat)

namespace ArrowSchema

def format : ArrowSchema → String
  | mk f _ _ _ => f

def name : ArrowSchema → Option String
  | mk _ n _ _ => n

def children : ArrowSchema → List ArrowSchema
  | mk _ _ c _ => c

def release : ArrowSchema → Option Nat
  | mk _ _ _ r => r

/-- The same node with its release callback set to `NULL`. -/
def released : ArrowSchema → ArrowSchema
  | mk f n c _ => mk f n c none

end ArrowSchema

/-- Modelled from the spec: `struct ArrowError` is declared in nanoarrow.h; the
helper reads only its free-text `message`. -/
structure ArrowError where
  message : String
  deriving DecidableEq, Repr

/-- Modelled from the spec: `NANOARROW_OK` is a constant of nanoarrow.h, the code
an engine stage returns on success. -/
def NANOARROW_OK : Int := 0

/-- Modelled from the spec: `enum ArrowValidationLevel` of nanoarrow.h; the
helper requests the "full" tier. -/
inductive ArrowValidationLevel where
  | NONE
  | MINIMAL
  | DEFAULT
  | FULL
  deriving DecidableEq, Repr

def NANOARROW_VALIDATION_LEVEL_FULL : ArrowValidationLevel := ArrowValidationLevel.FULL

/-- What an engine call leaves behind: the returned code, the object written
through the view pointer, and the error object. -/
structure Ret (α : Type) where
  result : Int
  view : α
  err : ArrowError

/-- The engine entry points the helper calls, as a parameter. `SV` is
`struct ArrowSchemaView`, `AV` is `struct ArrowArrayView`. The schema view and
the array view are uninitialised locals at the call that initialises them, and
so is `err` at the first call. -/
structure Engine (SV AV : Type) where
  ArrowSchemaViewInit : ArrowSchema → Ret SV
  ArrowArrayViewInitFromSchema : ArrowSchema → ArrowError → Ret AV
  ArrowArrayViewSetArray : AV → ArrowArray → ArrowError → Ret AV
  ArrowArrayViewValidate : AV → ArrowValidationLevel → ArrowError → Ret AV
  ArrowArrayViewReset : AV → AV

/-- Modelled from the spec: `ArrowArrayMove(src, dst)` is an inline function of
nanoarrow.h: "an ownership hand-off after which the source structure owns
nothing and the destination exclusively owns what the source owned". It
returns the new `(src, dst)`. -/
def ArrowArrayMove (src _dst : ArrowArray) : ArrowArray × ArrowArray :=
  (src.released, src)

/-- Modelled from the spec: `ArrowSchemaMove(src, dst)` is an inline function of
nanoarrow.h, the ownership hand-off for schemas. It returns the new
`(src, dst)`. -/
def ArrowSchemaMove (src _dst : ArrowSchema) : ArrowSchema × ArrowSchema :=
  (src.released, src)

/-- The objects behind the four pointer arguments. -/
structure Slots where
  input_array : ArrowArray
  input_schema : ArrowSchema
  output_array : ArrowArray
  output_schema : ArrowSchema

/-- A call the helper makes to the outside. Engine stages carry the code they
returned; `fprintf` carries its format string and its `%s` argument. -/
inductive Event where
  | ArrowSchemaViewInit (result : Int)
  | ArrowArrayViewInitFromSchema (result : Int)
  | ArrowArrayViewSetArray (result : Int)
  | ArrowArrayViewValidate (level : ArrowValidationLevel) (result : Int)
  | ArrowArrayViewReset
  | ArrowArrayMove
  | ArrowSchemaMove
  | fprintf (format : String) (arg : String)
  deriving DecidableEq, Repr

/-- What a call of the helper leaves behind: the returned `int`, the four
objects, the calls made, and the local `array_view` as it is when the function
returns (`none` when no call has written it). -/
structure Outcome (AV : Type) where
  result : Int
  slots : Slots
  trace : List Event
  array_view : Option AV

/-! ## `src/nanoarrow_test_helper/root.c` -/

/-- The function `test_helper_roundtrip_array` of root.c, lines 4-43. -/
def test_helper_roundtrip_array {SV AV : Type} (E : Engine SV AV) (m : Slots) : Outcome AV :=
  let r1 := E.ArrowSchemaViewInit m.input_schema
  if r1.result ≠ NANOARROW_OK then
    { result := r1.result
      slots := m
      trace := [Event.ArrowSchemaViewInit r1.result,
                Event.fprintf "Failed to initialize schema view: %s\n" r1.err.message]
      array_view := none }
  else
    let r2 := E.ArrowArrayViewInitFromSchema m.input_schema r1.err
    if r2.result ≠ NANOARROW_OK then
      { result := r2.result
        slots := m
        trace := [Event.ArrowSchemaViewInit r1.result,
                  Event.ArrowArrayViewInitFromSchema r2.result,
                  Event.fprintf "Failed to initialize array view: %s\n" r2.err.message]
        array_view := some r2.view }
    else
      let r3 := E.ArrowArrayViewSetArray r2.view m.input_array r2.err
      if r3.result ≠ NANOARROW_OK then
        { result := r3.result
          slots := m
          trace := [Event.ArrowSchemaViewInit r1.result,
                    Event.ArrowArrayViewInitFromSchema r2.result,
                    Event.ArrowArrayViewSetArray r3.result,
                    Event.fprintf "Failed to set array: %s\n" r3.err.message,
                    Event.ArrowArrayViewReset]
          array_view := some (E.ArrowArrayViewReset r3.view) }
      else
        let r4 := E.ArrowArrayViewValidate r3.view NANOARROW_VALIDATION_LEVEL_FULL r3.err
        if r4.result ≠ NANOARROW_OK then
          { result := r4.result
            slots := m
            trace := [Event.ArrowSchemaViewInit r1.result,
                      Event.ArrowArrayViewInitFromSchema r2.result,
                      Event.ArrowArrayViewSetArray r3.result,
                      Event.ArrowArrayViewValidate NANOARROW_VALIDATION_LEVEL_FULL r4.result,
                      Event.fprintf "Validation failed: %s\n" r4.err.message,
                      Event.ArrowArrayViewReset]
            array_view := some (E.ArrowArrayViewReset r4.view) }
        else
          let a := ArrowArrayMove m.input_array m.output_array
          let s := ArrowSchemaMove m.input_schema m.output_schema
          { result := NANOARROW_OK
            slots := { input_array := a.1, input_schema := s.1,
                       output_array := a.2, output_schema := s.2 }
            trace := [Event.ArrowSchemaViewInit r1.result,
                      Event.ArrowArrayViewInitFromSchema r2.result,
                      Event.ArrowArrayViewSetArray r3.result,
                      Event.ArrowArrayViewValidate NANOARROW_VALIDATION_LEVEL_FULL r4.result,
                      Event.ArrowArrayMove,
                      Event.ArrowSchemaMove]
            array_view := some r4.view }

/-! ## `src/fuzz.c` -/

/-- What a call of the fuzz entry point leaves behind: the returned `int`, the
world after the call (memory included), and the `(data, size)` argument pairs
of the calls made to `arrow_zig_run_fuzz_test`, in program order. -/
structure FuzzOutcome (W : Type) where
  result : Int
  world : W
  calls : List (Nat × Nat)

/-- The function `LLVMFuzzerTestOneInput` of fuzz.c, lines 6-9. The callee
`arrow_zig_run_fuzz_test` is only declared in fuzz.c (line 4); it is a
parameter, a `void` function that acts on the world and returns to its caller.
`Data` is the pointer value, `Size` the `size_t`. -/
def LLVMFuzzerTestOneInput {W : Type} (arrow_zig_run_fuzz_test : Nat → Nat → W → W)
    (Data Size : Nat) (w : W) : FuzzOutcome W :=
  { result := 0
    world := arrow_zig_run_fuzz_test Data Size w
    calls := [(Data, Size)] }

/-! ## Observers used to state the properties -/

/-- The four engine stages of the helper, in program order. -/
inductive Stage where
  | schema_view
  | array_view_init
  | bind
  | validate
  deriving DecidableEq, Repr

section stages

variable {SV AV : Type}

/-- What `ArrowSchemaViewInit` returns on the input schema (root.c line 12). -/
def schemaViewRet (E : Engine SV AV) (m : Slots) : Ret SV :=
  E.ArrowSchemaViewInit m.input_schema

/-- What `ArrowArrayViewInitFromSchema` returns when run after the schema-view
stage (root.c line 19). -/
def arrayViewInitRet (E : Engine SV AV) (m : Slots) : Ret AV :=
  E.ArrowArrayViewInitFromSchema m.input_schema (schemaViewRet E m).err

/-- What `ArrowArrayViewSetArray` returns when run after the first two stages
(root.c line 25). -/
def bindRet (E : Engine SV AV) (m : Slots) : Ret AV :=
  E.ArrowArrayViewSetArray (arrayViewInitRet E m).view m.input_array (arrayViewInitRet E m).err

/-- What `ArrowArrayViewValidate` returns when run after the first three stages
(root.c line 32). -/
def validateRet (E : Engine SV AV) (m : Slots) : Ret AV :=
  E.ArrowArrayViewValidate (bindRet E m).view NANOARROW_VALIDATION_LEVEL_FULL (bindRet E m).err

/-- The code each stage returns when the stages are run in program order. -/
def stageCode (E : Engine SV AV) (m : Slots) : Stage → Int
  | Stage.schema_view => (schemaViewRet E m).result
  | Stage.array_view_init => (arrayViewInitRet E m).result
  | Stage.bind => (bindRet E m).result
  | Stage.validate => (validateRet E m).result

/-- The first stage, in program order, whose code is not `NANOARROW_OK`. -/
def firstFailure (E : Engine SV AV) (m : Slots) : Option Stage :=
  [Stage.schema_view, Stage.array_view_init, Stage.bind, Stage.validate].find?
    (fun st => decide (stageCode E m st ≠ NANOARROW_OK))

end stages

/-- The engine stage an event is a call of, with the code the call returned. -/
def Event.stageCall : Event → Option (Stage × Int)
  | Event.ArrowSchemaViewInit c => some (Stage.schema_view, c)
  | Event.ArrowArrayViewInitFromSchema c => some (Stage.array_view_init, c)
  | Event.ArrowArrayViewSetArray c => some (Stage.bind, c)
  | Event.ArrowArrayViewValidate _ c => some (Stage.validate, c)
  | _ => none

/-- The format string of an event that is an `fprintf` call. -/
def Event.format? : Event → Option String
  | Event.fprintf f _ => some f
  | _ => none

/-- The format string root.c prints on a failure of the stage (lines 14, 21,
27, 34). -/
def Stage.format : Stage → String
  | Stage.schema_view => "Failed to initialize schema view: %s\n"
  | Stage.array_view_init => "Failed to initialize array view: %s\n"
  | Stage.bind => "Failed to set array: %s\n"
  | Stage.validate => "Validation failed: %s\n"

/-- The stage a diagnostic format string belongs to. -/
def stageOfFormat (f : String) : Option Stage :=
  [Stage.schema_view, Stage.array_view_init, Stage.bind, Stage.validate].find?
    (fun st => decide (st.format = f))

/-- The four handles a caller holds around a call. -/
inductive Handle where
  | input_array
  | input_schema
  | output_array
  | output_schema
  deriving DecidableEq, Repr

/-- The handles that are live, that is, whose release callback is set. -/
def liveHandles (s : Slots) : List Handle :=
  (if s.input_array.release.isSome then [Handle.input_array] else []) ++
  (if s.input_schema.release.isSome then [Handle.input_schema] else []) ++
  (if s.output_array.release.isSome then [Handle.output_array] else []) ++
  (if s.output_schema.release.isSome then [Handle.output_schema] else [])

/-! ## Sample engines and inputs, to evaluate the helper on -/

/-- An engine whose stages return fixed codes and messages. -/
def constEngine (c1 c2 c3 c4 : Int) : Engine Unit Unit where
  ArrowSchemaViewInit := fun _ => { result := c1, view := (), err := { message := "schema" } }
  ArrowArrayViewInitFromSchema := fun _ _ =>
    { result := c2, view := (), err := { message := "init" } }
  ArrowArrayViewSetArray := fun _ _ _ => { result := c3, view := (), err := { message := "set" } }
  ArrowArrayViewValidate := fun _ _ _ =>
    { result := c4, view := (), err := { message := "validate" } }
  ArrowArrayViewReset := fun v => v

/-- An engine for flat 32-bit integer columns (format "i"): the schema stages
reject a released schema, another format or a schema with children with code
22; binding rejects an array with children or without exactly two buffers with
code 22; validation rejects a negative length, a null count above the length
and a data buffer shorter than four bytes an element with code 22. The view is
the bound array. -/
def int32Engine : Engine Unit (Option ArrowArray) where
  ArrowSchemaViewInit := fun s =>
    if s.release.isSome ∧ s.format = "i" ∧ s.children.length = 0 then
      { result := 0, view := (), err := { message := "" } }
    else { result := 22, view := (), err := { message := "bad schema" } }
  ArrowArrayViewInitFromSchema := fun s e =>
    if s.release.isSome ∧ s.format = "i" ∧ s.children.length = 0 then
      { result := 0, view := none, err := e }
    else { result := 22, view := none, err := { message := "bad schema" } }
  ArrowArrayViewSetArray := fun _ a e =>
    if a.children.length = 0 ∧ a.buffers.length = 2 then
      { result := 0, view := some a, err := e }
    else { result := 22, view := none, err := { message := "bad layout" } }
  ArrowArrayViewValidate := fun v _ e =>
    match v with
    | none => { result := 22, view := v, err := { message := "unbound" } }
    | some a =>
      if 0 ≤ a.length ∧ a.null_count ≤ a.length ∧
          4 * a.length ≤ ((a.buffers.getD 1 []).length : Int) then
        { result := 0, view := v, err := e }
      else { result := 22, view := v, err := { message := "buffer too small" } }
  ArrowArrayViewReset := fun _ => none

/-- A live int32 schema. -/
def int32Schema : ArrowSchema := ArrowSchema.mk "i" none [] (some 2)

/-- A live int32 array of length 10, null count 0, with an empty validity
buffer and a data buffer of 40 bytes. -/
def int32Array10 : ArrowArray := ArrowArray.mk 10 0 [[], List.replicate 40 0] [] (some 1)

/-- The same array with a data buffer sized for length 5. -/
def int32ArrayShort : ArrowArray := ArrowArray.mk 10 0 [[], List.replicate 20 0] [] (some 1)

/-- A released array with no buffers, as an unused destination slot. -/
def emptyArray : ArrowArray := ArrowArray.mk 0 0 [] [] none

/-- A released schema, as an unused destination slot. -/
def emptySchema : ArrowSchema := ArrowSchema.mk "" none [] none

/-- Slots holding the int32 array of length 10 and its schema. -/
def goodSlots : Slots :=
  { input_array := int32Array10, input_schema := int32Schema,
    output_array := emptyArray, output_schema := emptySchema }

/-- Slots holding the array whose data buffer is too short. -/
def shortSlots : Slots :=
  { input_array := int32ArrayShort, input_schema := int32Schema,
    output_array := emptyArray, output_schema := emptySchema }

/-- Slots whose schema has a format the int32 engine rejects. -/
def badSchemaSlots : Slots :=
  { input_array := int32Array10, input_schema := ArrowSchema.mk "?" none [] (some 2),
    output_array := emptyArray, output_schema := emptySchema }

/-! ## Properties of `test_helper_roundtrip_array` -/

section lemmas

variable {SV AV : Type}

theorem array_release_released (a : ArrowArray) : a.released.release = none := by
  cases a; rfl

theorem schema_release_released (a : ArrowSchema) : a.released.release = none := by
  cases a; rfl

/-- The first failing stage, by cases on the codes in program order. -/
theorem firstFailure_eq (E : Engine SV AV) (m : Slots) :
    firstFailure E m =
      if stageCode E m Stage.schema_view ≠ NANOARROW_OK then some Stage.schema_view
      else if stageCode E m Stage.array_view_init ≠ NANOARROW_OK then some Stage.array_view_init
      else if stageCode E m Stage.bind ≠ NANOARROW_OK then some Stage.bind
      else if stageCode E m Stage.validate ≠ NANOARROW_OK then some Stage.validate
      else none := by
  unfold firstFailure
  split_ifs <;> simp_all [List.find?]

/-- A failing call leaves the four objects as they were. -/
theorem slots_eq_of_failure (E : Engine SV AV) (m : Slots)
    (h : (test_helper_roundtrip_array E m).result ≠ NANOARROW_OK) :
    (test_helper_roundtrip_array E m).slots = m := by
  unfold test_helper_roundtrip_array at h ⊢
  simp only [] at h ⊢
  split_ifs at h ⊢ <;> simp_all

/-- The helper returns `NANOARROW_OK` exactly when no stage fails. -/
theorem result_eq_ok_iff (E : Engine SV AV) (m : Slots) :
    (test_helper_roundtrip_array E m).result = NANOARROW_OK ↔ firstFailure E m = none := by
  unfold test_helper_roundtrip_array firstFailure
  simp only [List.find?, stageCode, schemaViewRet, arrayViewInitRet, bindRet, validateRet]
  split_ifs <;> simp_all

/-- A successful call never calls `ArrowArrayViewReset`, and the array view is
still the validated view when the function returns. -/
theorem reset_not_called_on_success (E : Engine SV AV) (m : Slots)
    (h : (test_helper_roundtrip_array E m).result = NANOARROW_OK) :
    Event.ArrowArrayViewReset ∉ (test_helper_roundtrip_array E m).trace ∧
    (test_helper_roundtrip_array E m).array_view = some (validateRet E m).view := by
  unfold test_helper_roundtrip_array at h ⊢
  simp only [validateRet, bindRet, arrayViewInitRet, schemaViewRet] at h ⊢
  split_ifs at h ⊢ <;> simp_all

end lemmas

/-- C1. Whenever the helper returns a value other than `NANOARROW_OK`, the
four objects (source array, source schema, destination array, destination
schema) are exactly what they were before the call, so the release callbacks of
the sources are what they were, and neither `ArrowArrayMove` nor
`ArrowSchemaMove` was called. -/
theorem roundtrip_failure_leaves_slots {SV AV : Type} (E : Engine SV AV) (m : Slots)
    (h : (test_helper_roundtrip_array E m).result ≠ NANOARROW_OK) :
    (test_helper_roundtrip_array E m).slots = m ∧
    (test_helper_roundtrip_array E m).slots.input_array.release = m.input_array.release ∧
    (test_helper_roundtrip_array E m).slots.input_schema.release = m.input_schema.release ∧
    Event.ArrowArrayMove ∉ (test_helper_roundtrip_array E m).trace ∧
    Event.ArrowSchemaMove ∉ (test_helper_roundtrip_array E m).trace := by
  unfold test_helper_roundtrip_array at h ⊢
  simp only [] at h ⊢
  split_ifs at h ⊢ <;> simp_all

theorem roundtrip_failure_leaves_slots_witness :
    (test_helper_roundtrip_array int32Engine shortSlots).result ≠ NANOARROW_OK ∧
    (test_helper_roundtrip_array int32Engine shortSlots).slots.input_array.release = some 1 ∧
    (test_helper_roundtrip_array int32Engine shortSlots).slots.input_schema.release = some 2 ∧
    Event.ArrowArrayMove ∉ (test_helper_roundtrip_array int32Engine shortSlots).trace :=
  have h := roundtrip_failure_leaves_slots int32Engine shortSlots (by decide)
  ⟨by decide, h.2.1, h.2.2.1, h.2.2.2.1⟩

/-- C2. Whenever all four engine stages succeed, the helper returns
`NANOARROW_OK` and the destination array and schema are equal to what the
source array and schema were before the call: same length, same null count,
same buffers, same children. -/
theorem roundtrip_success_destination_equals_source {SV AV : Type} (E : Engine SV AV)
    (m : Slots) (h : ∀ st, stageCode E m st = NANOARROW_OK) :
    (test_helper_roundtrip_array E m).result = NANOARROW_OK ∧
    (test_helper_roundtrip_array E m).slots.output_array = m.input_array ∧
    (test_helper_roundtrip_array E m).slots.output_schema = m.input_schema ∧
    (test_helper_roundtrip_array E m).slots.output_array.length = m.input_array.length ∧
    (test_helper_roundtrip_array E m).slots.output_array.null_count = m.input_array.null_count ∧
    (test_helper_roundtrip_array E m).slots.output_array.buffers = m.input_array.buffers ∧
    (test_helper_roundtrip_array E m).slots.output_array.children = m.input_array.children ∧
    (test_helper_roundtrip_array E m).slots.output_schema.children = m.input_schema.children := by
  have h1 := h Stage.schema_view
  have h2 := h Stage.array_view_init
  have h3 := h Stage.bind
  have h4 := h Stage.validate
  simp only [stageCode, schemaViewRet, arrayViewInitRet, bindRet, validateRet] at h1 h2 h3 h4
  unfold test_helper_roundtrip_array
  simp [h1, h2, h3, h4, ArrowArrayMove, ArrowSchemaMove]

theorem roundtrip_success_destination_equals_source_witness :
    (∀ st, stageCode int32Engine goodSlots st = NANOARROW_OK) ∧
    (test_helper_roundtrip_array int32Engine goodSlots).result = NANOARROW_OK ∧
    (test_helper_roundtrip_array int32Engine goodSlots).slots.output_array = int32Array10 ∧
    (test_helper_roundtrip_array int32Engine goodSlots).slots.output_array.length = 10 :=
  have h0 : ∀ st, stageCode int32Engine goodSlots st = NANOARROW_OK :=
    fun st => by cases st <;> decide
  have h := roundtrip_success_destination_equals_source int32Engine goodSlots h0
  ⟨h0, h.1, h.2.1, h.2.2.2.1⟩

/-- C3. Whenever the helper returns `NANOARROW_OK`, both source handles are
released (no release callback) and the destination handles hold the release
callbacks the sources had; so when the sources were live before the call, the
live handles after it are exactly the two destination handles. -/
theorem roundtrip_success_sources_released {SV AV : Type} (E : Engine SV AV) (m : Slots)
    (h : (test_helper_roundtrip_array E m).result = NANOARROW_OK) :
    (test_helper_roundtrip_array E m).slots.input_array.release = none ∧
    (test_helper_roundtrip_array E m).slots.input_schema.release = none ∧
    (test_helper_roundtrip_array E m).slots.output_array.release = m.input_array.release ∧
    (test_helper_roundtrip_array E m).slots.output_schema.release = m.input_schema.release ∧
    (m.input_array.release.isSome = true → m.input_schema.release.isSome = true →
      liveHandles (test_helper_roundtrip_array E m).slots =
        [Handle.output_array, Handle.output_schema]) := by
  unfold test_helper_roundtrip_array at h ⊢
  simp only [] at h ⊢
  split_ifs at h ⊢
  · simp_all
  · simp_all
  · simp_all
  · simp_all
  · simp only [ArrowArrayMove, ArrowSchemaMove, array_release_released,
      schema_release_released, true_and]
    intro ha hs
    simp [liveHandles, array_release_released, schema_release_released, ha, hs]

theorem roundtrip_success_sources_released_witness :
    (test_helper_roundtrip_array int32Engine goodSlots).result = NANOARROW_OK ∧
    (test_helper_roundtrip_array int32Engine goodSlots).slots.input_array.release = none ∧
    (test_helper_roundtrip_array int32Engine goodSlots).slots.output_array.release = some 1 ∧
    (test_helper_roundtrip_array int32Engine goodSlots).slots.output_schema.release = some 2 ∧
    liveHandles (test_helper_roundtrip_array int32Engine goodSlots).slots =
      [Handle.output_array, Handle.output_schema] :=
  have h := roundtrip_success_sources_released int32Engine goodSlots (by decide)
  ⟨by decide, h.1, h.2.2.1, h.2.2.2.1, h.2.2.2.2 (by decide) (by decide)⟩

/-- C4. After every call exactly one of two outcomes holds: (a) the helper
returned `NANOARROW_OK`, all four stages succeeded, and both the array and the
schema were moved (each move called once, the destinations hold the sources);
or (b) it returned another code, some stage failed, neither move was called and
the four objects are unchanged. One move is called exactly when the other is,
and the return value is `NANOARROW_OK` exactly when the moves were called. -/
theorem roundtrip_all_or_nothing {SV AV : Type} (E : Engine SV AV) (m : Slots) :
    Xor'
      ((test_helper_roundtrip_array E m).result = NANOARROW_OK ∧
        (∀ st, stageCode E m st = NANOARROW_OK) ∧
        (test_helper_roundtrip_array E m).trace.count Event.ArrowArrayMove = 1 ∧
        (test_helper_roundtrip_array E m).trace.count Event.ArrowSchemaMove = 1 ∧
        (test_helper_roundtrip_array E m).slots.output_array = m.input_array ∧
        (test_helper_roundtrip_array E m).slots.output_schema = m.input_schema)
      ((test_helper_roundtrip_array E m).result ≠ NANOARROW_OK ∧
        (∃ st, stageCode E m st ≠ NANOARROW_OK) ∧
        Event.ArrowArrayMove ∉ (test_helper_roundtrip_array E m).trace ∧
        Event.ArrowSchemaMove ∉ (test_helper_roundtrip_array E m).trace ∧
        (test_helper_roundtrip_array E m).slots = m) ∧
    (Event.ArrowArrayMove ∈ (test_helper_roundtrip_array E m).trace ↔
      Event.ArrowSchemaMove ∈ (test_helper_roundtrip_array E m).trace) ∧
    ((test_helper_roundtrip_array E m).result = NANOARROW_OK ↔
      Event.ArrowArrayMove ∈ (test_helper_roundtrip_array E m).trace) := by
  unfold test_helper_roundtrip_array
  simp only []
  split_ifs with h1 h2 h3 h4
  · refine ⟨Or.inr ⟨⟨h1, ⟨Stage.schema_view, h1⟩, by simp, by simp, rfl⟩, ?_⟩, by simp, ?_⟩
    · intro hc; exact h1 hc.1
    · simp [h1]
  · refine ⟨Or.inr ⟨⟨h2, ⟨Stage.array_view_init, h2⟩, by simp, by simp, rfl⟩, ?_⟩, by simp, ?_⟩
    · intro hc; exact h2 hc.1
    · simp [h2]
  · refine ⟨Or.inr ⟨⟨h3, ⟨Stage.bind, h3⟩, by simp, by simp, rfl⟩, ?_⟩, by simp, ?_⟩
    · intro hc; exact h3 hc.1
    · simp [h3]
  · refine ⟨Or.inr ⟨⟨h4, ⟨Stage.validate, h4⟩, by simp, by simp, rfl⟩, ?_⟩, by simp, ?_⟩
    · intro hc; exact h4 hc.1
    · simp [h4]
  · refine ⟨Or.inl ⟨⟨rfl, ?_, by simp, by simp, by simp [ArrowArrayMove],
      by simp [ArrowSchemaMove]⟩, ?_⟩, by simp, by simp⟩
    · intro st
      cases st
      · simpa [stageCode, schemaViewRet] using h1
      · simpa [stageCode, arrayViewInitRet, schemaViewRet] using h2
      · simpa [stageCode, bindRet, arrayViewInitRet, schemaViewRet] using h3
      · simpa [stageCode, validateRet, bindRet, arrayViewInitRet, schemaViewRet] using h4
    · intro hc; exact hc.1 rfl

/-- C5, the claim as stated fails: two calls that fail at different stages
(schema-view and validate) return the same value, 22. -/
theorem stage_not_recoverable_from_result :
    firstFailure int32Engine badSchemaSlots = some Stage.schema_view ∧
    firstFailure int32Engine shortSlots = some Stage.validate ∧
    (test_helper_roundtrip_array int32Engine badSchemaSlots).result = 22 ∧
    (test_helper_roundtrip_array int32Engine shortSlots).result = 22 := by
  decide

/-- C5, amended. On every failure the value returned is the code of the first
failing stage, and the helper makes exactly one `fprintf` call, whose format
string is the one of the failing stage; the four format strings are pairwise
distinct, so the failing stage is recovered from the diagnostic line. -/
theorem failure_stage_in_diagnostic {SV AV : Type} (E : Engine SV AV) (m : Slots)
    (h : (test_helper_roundtrip_array E m).result ≠ NANOARROW_OK) :
    ∃ st, firstFailure E m = some st ∧
      (test_helper_roundtrip_array E m).result = stageCode E m st ∧
      (test_helper_roundtrip_array E m).trace.filterMap Event.format? = [st.format] ∧
      stageOfFormat st.format = some st ∧
      ∀ st2 : Stage, st2.format = st.format → st2 = st := by
  unfold test_helper_roundtrip_array firstFailure at *
  simp only [List.find?, stageCode, schemaViewRet, arrayViewInitRet, bindRet, validateRet] at *
  split_ifs at h ⊢ with h1 h2 h3 h4
  · refine ⟨Stage.schema_view, by simp [h1], rfl, rfl, by decide,
      fun st2 => by cases st2 <;> decide⟩
  · refine ⟨Stage.array_view_init, by simp_all, rfl, rfl, by decide,
      fun st2 => by cases st2 <;> decide⟩
  · refine ⟨Stage.bind, by simp_all, rfl, rfl, by decide,
      fun st2 => by cases st2 <;> decide⟩
  · refine ⟨Stage.validate, by simp_all, rfl, rfl, by decide,
      fun st2 => by cases st2 <;> decide⟩
  · exact absurd rfl h

theorem failure_stage_in_diagnostic_witness :
    (test_helper_roundtrip_array int32Engine shortSlots).result ≠ NANOARROW_OK ∧
    ∃ st, firstFailure int32Engine shortSlots = some st ∧
      (test_helper_roundtrip_array int32Engine shortSlots).result =
        stageCode int32Engine shortSlots st ∧
      (test_helper_roundtrip_array int32Engine shortSlots).trace.filterMap Event.format? =
        [st.format] ∧
      stageOfFormat st.format = some st ∧
      ∀ st2 : Stage, st2.format = st.format → st2 = st :=
  ⟨by decide, failure_stage_in_diagnostic int32Engine shortSlots (by decide)⟩

/-- C6, the code at an input on which all four stages succeed: the helper
returns `NANOARROW_OK` and moves both structures, but it never calls
`ArrowArrayViewReset`, and the array view is still bound to the array when the
function returns. -/
theorem success_path_leaves_view_unreleased :
    (test_helper_roundtrip_array int32Engine goodSlots).result = NANOARROW_OK ∧
    (test_helper_roundtrip_array int32Engine goodSlots).trace =
      [Event.ArrowSchemaViewInit 0, Event.ArrowArrayViewInitFromSchema 0,
       Event.ArrowArrayViewSetArray 0,
       Event.ArrowArrayViewValidate ArrowValidationLevel.FULL 0,
       Event.ArrowArrayMove, Event.ArrowSchemaMove] ∧
    (test_helper_roundtrip_array int32Engine goodSlots).trace.count Event.ArrowArrayViewReset = 0 ∧
    (test_helper_roundtrip_array int32Engine goodSlots).array_view = some (some int32Array10) :=
  ⟨by decide, by decide, by decide, rfl⟩

/-- C7, the claim as stated fails: on a failure of the array-view-init stage
(code 12) the helper returns without a call of `ArrowArrayViewReset`. -/
theorem init_failure_does_not_reset :
    firstFailure (constEngine 0 12 0 0) goodSlots = some Stage.array_view_init ∧
    (test_helper_roundtrip_array (constEngine 0 12 0 0) goodSlots).result = 12 ∧
    (test_helper_roundtrip_array (constEngine 0 12 0 0) goodSlots).trace =
      [Event.ArrowSchemaViewInit 0, Event.ArrowArrayViewInitFromSchema 12,
       Event.fprintf "Failed to initialize array view: %s\n" "init"] ∧
    (test_helper_roundtrip_array (constEngine 0 12 0 0) goodSlots).trace.count
      Event.ArrowArrayViewReset = 0 := by
  decide

/-- C7, amended. On a failure at the bind or the validate stage the helper
calls `ArrowArrayViewReset` exactly once, as its last call before it returns,
on the view the failing stage left; on a failure at the array-view-init stage
(as at the schema-view stage) the helper itself makes no call of
`ArrowArrayViewReset`. -/
theorem reset_once_on_bind_or_validate_failure {SV AV : Type} (E : Engine SV AV) (m : Slots)
    (st : Stage) (h : firstFailure E m = some st) :
    (st = Stage.bind →
      (test_helper_roundtrip_array E m).trace.count Event.ArrowArrayViewReset = 1 ∧
      (test_helper_roundtrip_array E m).trace.getLast? = some Event.ArrowArrayViewReset ∧
      (test_helper_roundtrip_array E m).array_view =
        some (E.ArrowArrayViewReset (bindRet E m).view)) ∧
    (st = Stage.validate →
      (test_helper_roundtrip_array E m).trace.count Event.ArrowArrayViewReset = 1 ∧
      (test_helper_roundtrip_array E m).trace.getLast? = some Event.ArrowArrayViewReset ∧
      (test_helper_roundtrip_array E m).array_view =
        some (E.ArrowArrayViewReset (validateRet E m).view)) ∧
    (st = Stage.array_view_init ∨ st = Stage.schema_view →
      Event.ArrowArrayViewReset ∉ (test_helper_roundtrip_array E m).trace) := by
  rw [firstFailure_eq] at h
  unfold test_helper_roundtrip_array
  simp only [stageCode, schemaViewRet, arrayViewInitRet, bindRet, validateRet] at h ⊢
  split_ifs at h ⊢ with h1 h2 h3 h4
  · cases h; simp
  · cases h; simp
  · cases h; simp
  · cases h; simp

theorem reset_once_on_bind_or_validate_failure_witness :
    firstFailure int32Engine shortSlots = some Stage.validate ∧
    (test_helper_roundtrip_array int32Engine shortSlots).trace.count
      Event.ArrowArrayViewReset = 1 ∧
    (test_helper_roundtrip_array int32Engine shortSlots).trace.getLast? =
      some Event.ArrowArrayViewReset :=
  have h := (reset_once_on_bind_or_validate_failure int32Engine shortSlots Stage.validate
    (by decide)).2.1 rfl
  ⟨by decide, h.1, h.2.1⟩

/-- C8. Rejection is idempotent: whenever the helper fails on a pair, the
four objects are unchanged after the call, and a second call on the objects the
first call left fails again, at the same stage, with the same returned code
(and the same calls made). -/
theorem rejection_idempotent {SV AV : Type} (E : Engine SV AV) (m : Slots)
    (h : (test_helper_roundtrip_array E m).result ≠ NANOARROW_OK) :
    (test_helper_roundtrip_array E m).slots = m ∧
    (∃ st, firstFailure E m = some st ∧
      firstFailure E (test_helper_roundtrip_array E m).slots = some st) ∧
    (test_helper_roundtrip_array E (test_helper_roundtrip_array E m).slots).result =
      (test_helper_roundtrip_array E m).result ∧
    (test_helper_roundtrip_array E (test_helper_roundtrip_array E m).slots).result ≠
      NANOARROW_OK ∧
    (test_helper_roundtrip_array E (test_helper_roundtrip_array E m).slots).trace =
      (test_helper_roundtrip_array E m).trace ∧
    (test_helper_roundtrip_array E (test_helper_roundtrip_array E m).slots).slots = m := by
  have hs := slots_eq_of_failure E m h
  have hf : ∃ st, firstFailure E m = some st := by
    cases hff : firstFailure E m with
    | none => exact absurd ((result_eq_ok_iff E m).mpr hff) h
    | some st => exact ⟨st, rfl⟩
  obtain ⟨st, hst⟩ := hf
  rw [hs]
  exact ⟨rfl, ⟨st, hst, hst⟩, rfl, h, rfl, hs⟩

theorem rejection_idempotent_witness :
    (test_helper_roundtrip_array int32Engine shortSlots).result ≠ NANOARROW_OK ∧
    (test_helper_roundtrip_array int32Engine
      (test_helper_roundtrip_array int32Engine shortSlots).slots).result = 22 ∧
    (test_helper_roundtrip_array int32Engine
      (test_helper_roundtrip_array int32Engine shortSlots).slots).trace =
      (test_helper_roundtrip_array int32Engine shortSlots).trace :=
  have h := rejection_idempotent int32Engine shortSlots (by decide)
  ⟨by decide, h.2.2.1, h.2.2.2.2.1⟩

/-- C9. For every buffer pointer, size and world, and whatever the callee does
to the world, `LLVMFuzzerTestOneInput` returns 0, and it calls
`arrow_zig_run_fuzz_test` exactly once, with the pointer and the size it was
given; the world after the call is the one the callee left. -/
theorem fuzz_entry_returns_zero {W : Type} (arrow_zig_run_fuzz_test : Nat → Nat → W → W)
    (Data Size : Nat) (w : W) :
    (LLVMFuzzerTestOneInput arrow_zig_run_fuzz_test Data Size w).result = 0 ∧
    (LLVMFuzzerTestOneInput arrow_zig_run_fuzz_test Data Size w).calls = [(Data, Size)] ∧
    (LLVMFuzzerTestOneInput arrow_zig_run_fuzz_test Data Size w).world =
      arrow_zig_run_fuzz_test Data Size w :=
  ⟨rfl, rfl, rfl⟩

/-- C10. The engine stages are called in the order schema-view,
array-view-init, bind, validate: the stage calls made are an initial segment of
that sequence, each with the code the stage returns, and every stage call but
the last returned `NANOARROW_OK`. When `ArrowSchemaViewInit` fails, the helper
returns its code after that one engine call and the diagnostic, with no other
call. In general the value returned on failure is the code of the first
failing stage, that stage is the last one called, and no move is made. -/
theorem stages_in_order_first_failure_returned {SV AV : Type} (E : Engine SV AV) (m : Slots) :
    (test_helper_roundtrip_array E m).trace.filterMap Event.stageCall <+:
      [(Stage.schema_view, stageCode E m Stage.schema_view),
       (Stage.array_view_init, stageCode E m Stage.array_view_init),
       (Stage.bind, stageCode E m Stage.bind),
       (Stage.validate, stageCode E m Stage.validate)] ∧
    (∀ p ∈ ((test_helper_roundtrip_array E m).trace.filterMap Event.stageCall).dropLast,
      p.2 = NANOARROW_OK) ∧
    (stageCode E m Stage.schema_view ≠ NANOARROW_OK →
      (test_helper_roundtrip_array E m).result = stageCode E m Stage.schema_view ∧
      (test_helper_roundtrip_array E m).trace =
        [Event.ArrowSchemaViewInit (stageCode E m Stage.schema_view),
         Event.fprintf "Failed to initialize schema view: %s\n" (schemaViewRet E m).err.message]) ∧
    (∀ st, firstFailure E m = some st →
      (test_helper_roundtrip_array E m).result = stageCode E m st ∧
      (test_helper_roundtrip_array E m).result ≠ NANOARROW_OK ∧
      ((test_helper_roundtrip_array E m).trace.filterMap Event.stageCall).getLast? =
        some (st, stageCode E m st) ∧
      Event.ArrowArrayMove ∉ (test_helper_roundtrip_array E m).trace ∧
      Event.ArrowSchemaMove ∉ (test_helper_roundtrip_array E m).trace) ∧
    (firstFailure E m = none →
      (test_helper_roundtrip_array E m).result = NANOARROW_OK ∧
      (test_helper_roundtrip_array E m).trace.filterMap Event.stageCall =
        [(Stage.schema_view, NANOARROW_OK), (Stage.array_view_init, NANOARROW_OK),
         (Stage.bind, NANOARROW_OK), (Stage.validate, NANOARROW_OK)]) := by
  rw [firstFailure_eq]
  unfold test_helper_roundtrip_array
  simp only [stageCode, schemaViewRet, arrayViewInitRet, bindRet, validateRet]
  split_ifs with h1 h2 h3 h4
  · refine ⟨⟨_, rfl⟩, by simp [Event.stageCall], fun _ => ⟨rfl, rfl⟩, ?_, by simp⟩
    intro st hst
    cases hst
    simp [Event.stageCall, h1]
  · have e1 := not_not.mp h1
    refine ⟨⟨_, rfl⟩, by simp [Event.stageCall, e1], fun h => absurd e1 h, ?_, by simp⟩
    intro st hst
    cases hst
    simp [Event.stageCall, h2]
  · have e1 := not_not.mp h1
    have e2 := not_not.mp h2
    refine ⟨⟨_, rfl⟩, by simp [Event.stageCall, e1, e2], fun h => absurd e1 h, ?_, by simp⟩
    intro st hst
    cases hst
    simp [Event.stageCall, h3]
  · have e1 := not_not.mp h1
    have e2 := not_not.mp h2
    have e3 := not_not.mp h3
    refine ⟨⟨_, rfl⟩, by simp [Event.stageCall, e1, e2, e3], fun h => absurd e1 h, ?_, by simp⟩
    intro st hst
    cases hst
    simp [Event.stageCall, h4]
  · have e1 := not_not.mp h1
    have e2 := not_not.mp h2
    have e3 := not_not.mp h3
    have e4 := not_not.mp h4
    refine ⟨⟨[], rfl⟩, by simp [Event.stageCall, e1, e2, e3], fun h => absurd e1 h, ?_, ?_⟩
    · intro st hst
      cases hst
    · intro _
      simp [Event.stageCall, e1, e2, e3, e4]

theorem stages_in_order_first_failure_returned_witness :
    stageCode int32Engine badSchemaSlots Stage.schema_view ≠ NANOARROW_OK ∧
    (test_helper_roundtrip_array int32Engine badSchemaSlots).result = 22 ∧
    (test_helper_roundtrip_array int32Engine badSchemaSlots).trace =
      [Event.ArrowSchemaViewInit 22,
       Event.fprintf "Failed to initialize schema view: %s\n" "bad schema"] :=
  have h := (stages_in_order_first_failure_returned int32Engine badSchemaSlots).2.2.1
    (by decide)
  ⟨by decide, h.1, h.2⟩

end ArrowZig
